import Mathlib

/-!
Shallow embedding of the banderilla-hapi plugin.

The repository has two source files implementing a Hapi plugin exposing
queue-monitoring routes:

* `src/unnamed/part_000` — the full controller (`QueuesController` with
  handlers `index`, `retryAll`, `retry`, `promote`, `clean`) and route
  registrar (`Internals.onPostStart`);
* `src/lib/index.ts` — an earlier variant whose mutation handlers are empty
  stubs and whose route table differs.

JavaScript values appearing in responses are modelled by `JsVal`; calls into
the external queue / store collaborators are recorded as `Effect`s, so each
handler is a pure function from its inputs to a response together with the
list of collaborator calls it makes, in program order.
-/

namespace Banderilla

/-- JSON-like JavaScript value: `jsUndefVal` is JS `undefined`; `promiseOf v`
marks a pending promise that would resolve to `v` (used to model a value
that the code stores without awaiting). -/
inductive JsVal where
  | jsUndefVal : JsVal
  | str : String → JsVal
  | num : Int → JsVal
  | arr : List JsVal → JsVal
  | obj : List (String × JsVal) → JsVal
  | promiseOf : JsVal → JsVal
deriving Repr

/-- Result of `job.toJSON()` as read by `formatJob` in the source. -/
structure JobProps where
  id : JsVal
  timestamp : JsVal
  processedOn : JsVal
  finishedOn : JsVal
  progress : JsVal
  attemptsMade : JsVal
  failedReason : JsVal
  stacktrace : JsVal
  opts : JsVal
  data : JsVal
  name : JsVal
deriving Repr

/-- External job handle: `props` is what `toJSON()` returns, `optsDelay`
is the live `job.opts.delay` field read separately by `formatJob`. -/
structure Job where
  props : JobProps
  optsDelay : JsVal
deriving Repr

/-- Status filter argument passed to `queue.getJobs`: the query value for the
queue's name is forwarded verbatim (string or absent), or replaced by the
list of the six fixed statuses when it equals the string literal latest. -/
inductive StatusArg where
  | jsUndefVal : StatusArg
  | single : String → StatusArg
  | many : List String → StatusArg
deriving Repr, DecidableEq

/-- External queue handle: `redisInfo` models the parsed result of
`parseRedisInfo(await queue.client.info())` (the parser is the external
redis-info library, out of scope per the spec); the function fields are the
oracle answers of the external queue library. -/
structure Queue where
  name : String
  redisInfo : List (String × String)
  getJobCounts : List String → JsVal
  getJobs : StatusArg → Nat → Nat → List Job
  getJob : String → Option Job

/-- A collaborator call made by a handler. -/
inductive Effect where
  | infoCmd : Effect
  | getJobCounts : String → List String → Effect
  | getJobs : String → StatusArg → Nat → Nat → Effect
  | getJob : String → String → Effect
  | retryJob : Job → Effect
  | promoteJob : Job → Effect
  | cleanQueue : String → Nat → String → Effect
  | getQueuesCall : Effect

/-- HTTP response produced by a handler: a plain returned object (Hapi
serializes it with status 200), an explicit `h.response(body).code(c)`, or
no response at all (the JS function returned `undefined`). -/
inductive HOut where
  | plain : JsVal → HOut
  | coded : Option JsVal → Nat → HOut
  | noResponse : HOut
deriving Repr

/-- The metric allow-list (`metrics` constant in both source files). -/
def metrics : List String :=
  ["redis_version", "used_memory", "mem_fragmentation_ratio",
   "connected_clients", "blocked_clients"]

/-- The six fixed job statuses (`statuses` constant in both source files). -/
def statuses : List String :=
  ["active", "completed", "delayed", "failed", "paused", "waiting"]

/-- Grace period constant `GRACE_TIME_MS` of `part_000`. -/
def GRACE_TIME_MS : Nat := 5000

/-- Constant `LIMIT` of `part_000` (declared in the source, never used). -/
def LIMIT : Nat := 1000

/-- Body of the `notFound` helper response. -/
def notFoundVal : JsVal :=
  .obj [("statusCode", .num 404), ("error", .str "Not Found"),
        ("message", .str "Not Found")]

/-- The `notFound(h)` helper: the fixed body with status code 404. -/
def notFoundOut : HOut := .coded (some notFoundVal) 404

/-- Property lookup on the parsed redis info object. -/
def lookupInfo (info : List (String × String)) (k : String) : Option String :=
  (info.find? (fun p => p.1 == k)).map (fun p => p.2)

/-- JS truthiness of a possibly-absent string property: present and
non-empty (the only falsy JS string is the empty one). -/
def truthy : Option String → Bool
  | some v => v != ""
  | none => false

/-- Coerce a possibly-absent string property to the value stored in JS. -/
def jsOfOpt : Option String → JsVal
  | some v => .str v
  | none => .jsUndefVal

/-- The reduce callback of the `metrics.reduce` block of `index`:
`if (redisInfo[metric]) acc[metric] = redisInfo[metric]`. -/
def statsStep (info : List (String × String)) (acc : List (String × JsVal))
    (m : String) : List (String × JsVal) :=
  match lookupInfo info m with
  | some v => if v == "" then acc else acc ++ [(m, JsVal.str v)]
  | none => acc

/-- The `metrics.reduce` block of `index`: keep each allow-listed metric
whose value in the parsed info is truthy, in allow-list order. -/
def statsReduce (info : List (String × String)) : List (String × JsVal) :=
  metrics.foldl (statsStep info) []

/-- The `stats` object built by `index`: the reduce result followed by the
assignment `stats.total_system_memory = redisInfo.total_system_memory ||
redisInfo.maxmemory` (JS `||` falls through on a falsy left operand). -/
def statsOf (info : List (String × String)) : List (String × JsVal) :=
  statsReduce info ++
    [("total_system_memory",
      match lookupInfo info "total_system_memory" with
      | some v => if v == "" then jsOfOpt (lookupInfo info "maxmemory")
                  else .str v
      | none => jsOfOpt (lookupInfo info "maxmemory"))]

/-- Query lookup (`request.query` is a string map; absent keys give
`undefined`). -/
def lookupQuery (query : List (String × String)) (k : String) : Option String :=
  (query.find? (fun p => p.1 == k)).map (fun p => p.2)

/-- The status filter for one queue:
`query[queue.name] === 'latest' ? statuses : query[queue.name]`. -/
def statusArgOf (query : List (String × String)) (name : String) : StatusArg :=
  match lookupQuery query name with
  | some v => if v == "latest" then .many statuses else .single v
  | none => .jsUndefVal

/-- The `formatJob` helper of `part_000` (identical in both files). -/
def formatJob (job : Job) : JsVal :=
  .obj [("id", job.props.id),
        ("timestamp", job.props.timestamp),
        ("processedOn", job.props.processedOn),
        ("finishedOn", job.props.finishedOn),
        ("progress", job.props.progress),
        ("attempts", job.props.attemptsMade),
        ("delay", job.optsDelay),
        ("failedReason", job.props.failedReason),
        ("stacktrace", job.props.stacktrace),
        ("opts", job.props.opts),
        ("data", job.props.data),
        ("name", job.props.name)]

/-- One entry of the `data` array of `index` in `part_000` (`counts` is
awaited there). -/
def dataEntry (query : List (String × String)) (q : Queue) : JsVal :=
  .obj [("name", .str q.name),
        ("counts", q.getJobCounts statuses),
        ("jobs", .arr ((q.getJobs (statusArgOf query q.name) 0 10).map formatJob))]

/-- Collaborator calls made for one queue inside the `Promise.all` of
`index`: the counts fetch, then the jobs fetch. -/
def dataEntryFx (query : List (String × String)) (q : Queue) : List Effect :=
  [Effect.getJobCounts q.name statuses,
   Effect.getJobs q.name (statusArgOf query q.name) 0 10]

/-- Handler `QueuesController.index` of `part_000`: empty queue list short-circuits
to `{stats: {}, queues: []}`; otherwise the first queue's client is asked
for its info, the stats object is built, and per queue the counts and the
first ten jobs under the derived status filter are fetched. -/
def index (queues : List Queue) (query : List (String × String)) :
    HOut × List Effect :=
  match queues with
  | [] => (.plain (.obj [("stats", .obj []), ("queues", .arr [])]), [])
  | q0 :: _ =>
    (.plain (.obj [("stats", .obj (statsOf q0.redisInfo)),
                   ("data", .arr (queues.map (dataEntry query)))]),
     Effect.infoCmd :: queues.flatMap (dataEntryFx query))

/-- Queue lookup by exact name, `queues.find(q => q.name === queueName)`. -/
def findQueue (queues : List Queue) (name : String) : Option Queue :=
  queues.find? (fun q => q.name == name)

/-- Handler `QueuesController.retryAll` of `part_000`: 404 when the queue is
unknown; otherwise the function body ends without any call or response. -/
def retryAll (queues : List Queue) (queueName : String) : HOut × List Effect :=
  match findQueue queues queueName with
  | none => (notFoundOut, [])
  | some _ => (.noResponse, [])

/-- Handler `QueuesController.retry` of `part_000`. -/
def retry (queues : List Queue) (queueName jobId : String) :
    HOut × List Effect :=
  match findQueue queues queueName with
  | none => (notFoundOut, [])
  | some q =>
    match q.getJob jobId with
    | none => (notFoundOut, [Effect.getJob q.name jobId])
    | some job => (.coded none 204, [Effect.getJob q.name jobId,
                                     Effect.retryJob job])

/-- Handler `QueuesController.promote` of `part_000`. -/
def promote (queues : List Queue) (queueName jobId : String) :
    HOut × List Effect :=
  match findQueue queues queueName with
  | none => (notFoundOut, [])
  | some q =>
    match q.getJob jobId with
    | none => (notFoundOut, [Effect.getJob q.name jobId])
    | some job => (.coded none 204, [Effect.getJob q.name jobId,
                                     Effect.promoteJob job])

/-- Handler `QueuesController.clean` of `part_000`. -/
def clean (queues : List Queue) (queueName status : String) :
    HOut × List Effect :=
  match findQueue queues queueName with
  | none => (notFoundOut, [])
  | some q => (.coded none 200, [Effect.cleanQueue q.name GRACE_TIME_MS status])

/-- Identifier of the controller method a route is bound to. -/
inductive HandlerId where
  | index : HandlerId
  | retryAll : HandlerId
  | clean : HandlerId
  | retry : HandlerId
  | promote : HandlerId
deriving Repr, DecidableEq

/-- One registered route: HTTP method, path template, bound handler. -/
structure Route where
  method : String
  path : String
  handler : HandlerId
deriving Repr, DecidableEq

/-- The route table registered by `Internals.onPostStart` of `part_000`,
in registration order. -/
def onPostStartRoutes (basePath : String) : List Route :=
  [⟨"GET", basePath ++ "/queues", .index⟩,
   ⟨"PUT", basePath ++ "/queues/{queue}/retry", .retryAll⟩,
   ⟨"PUT", basePath ++ "/queues/{queue}/clean/{status}", .clean⟩,
   ⟨"PUT", basePath ++ "/queues/{queue}/jobs/{job}/retry", .retry⟩,
   ⟨"PUT", basePath ++ "/queues/{queue}/jobs/{job}/promote", .promote⟩]

namespace Lib

/-- One entry of the `data` array of `index` in `src/lib/index.ts`: there
`const counts = queue.getJobCounts(...statuses)` is NOT awaited, so the
entry stores the pending promise itself. -/
def dataEntry (query : List (String × String)) (q : Queue) : JsVal :=
  .obj [("name", .str q.name),
        ("counts", .promiseOf (q.getJobCounts statuses)),
        ("jobs", .arr ((q.getJobs (statusArgOf query q.name) 0 10).map formatJob))]

/-- Handler `QueuesController.index` of `src/lib/index.ts`: identical to the
`part_000` handler except that the job counts promise is stored unawaited. -/
def index (queues : List Queue) (query : List (String × String)) :
    HOut × List Effect :=
  match queues with
  | [] => (.plain (.obj [("stats", .obj []), ("queues", .arr [])]), [])
  | q0 :: _ =>
    (.plain (.obj [("stats", .obj (statsOf q0.redisInfo)),
                   ("data", .arr (queues.map (Lib.dataEntry query)))]),
     Effect.infoCmd :: queues.flatMap (dataEntryFx query))

/-- Handler `QueuesController.retryAll` of `src/lib/index.ts`: an empty stub. -/
def retryAll (_queues : List Queue) (_queueName : String) : HOut × List Effect :=
  (.noResponse, [])

/-- Handler `QueuesController.retry` of `src/lib/index.ts`: an empty stub. -/
def retry (_queues : List Queue) (_queueName _jobId : String) :
    HOut × List Effect :=
  (.noResponse, [])

/-- Handler `QueuesController.promote` of `src/lib/index.ts`: an empty stub. -/
def promote (_queues : List Queue) (_queueName _jobId : String) :
    HOut × List Effect :=
  (.noResponse, [])

/-- Handler `QueuesController.clean` of `src/lib/index.ts`: an empty stub. -/
def clean (_queues : List Queue) (_queueName _status : String) :
    HOut × List Effect :=
  (.noResponse, [])

/-- The route table registered by `Internals.onPostStart` of
`src/lib/index.ts`, in registration order. -/
def onPostStartRoutes (basePath : String) : List Route :=
  [⟨"GET", basePath ++ "/queues", .index⟩,
   ⟨"PUT", basePath ++ "/queues/retry", .retryAll⟩,
   ⟨"PUT", basePath ++ "/queues/{queue}/retry", .retry⟩,
   ⟨"PUT", basePath ++ "/queues/{queue}/promote", .promote⟩,
   ⟨"PUT", basePath ++ "/queues/{queue}/clean/{status}", .clean⟩]

end Lib

/-- Plugin options of `part_000`: `getQueuesResult` is the list that the
user-supplied asynchronous `getQueues` factory resolves to. -/
structure Options where
  basePath : String
  getQueuesResult : List Queue

/-- A dispatched HTTP request: which handler the router matched and the
path / query parameters it extracted. -/
structure Request where
  handler : HandlerId
  queueName : String
  jobId : String
  status : String
  query : List (String × String)

/-- Server state after startup: the cached queue list and the routing
table. -/
structure ServerState where
  queues : List Queue
  routes : List Route

/-- Startup hook `Internals.onPostStart` of `part_000`: awaits `getQueues()` once,
caches the result in `this.queues`, and registers the route table. -/
def startServer (opts : Options) : ServerState × List Effect :=
  (⟨opts.getQueuesResult, onPostStartRoutes opts.basePath⟩,
   [Effect.getQueuesCall])

/-- Handling one matched request: the controller methods only read
`this.internals.queues`, so the state is returned unchanged. -/
def dispatch (s : ServerState) (r : Request) :
    ServerState × (HOut × List Effect) :=
  match r.handler with
  | .index => (s, index s.queues r.query)
  | .retryAll => (s, retryAll s.queues r.queueName)
  | .retry => (s, retry s.queues r.queueName r.jobId)
  | .promote => (s, promote s.queues r.queueName r.jobId)
  | .clean => (s, clean s.queues r.queueName r.status)

/-- One lifecycle step: handle a request from the current state and append
its collaborator calls to the running trace. -/
def serverStep (acc : ServerState × List Effect) (r : Request) :
    ServerState × List Effect :=
  ((dispatch acc.1 r).1, acc.2 ++ (dispatch acc.1 r).2.2)

/-- Server lifecycle: startup followed by a sequence of requests,
accumulating every collaborator call made. -/
def runServer (opts : Options) (reqs : List Request) :
    ServerState × List Effect :=
  reqs.foldl serverStep (startServer opts)

/-- Recognizes a `getQueues` factory invocation in an effect trace. -/
def isGetQueuesCall : Effect → Bool
  | .getQueuesCall => true
  | _ => false

/-- Recognizes a job retry invocation in an effect trace. -/
def isRetryJob : Effect → Bool
  | .retryJob _ => true
  | _ => false

/-- Recognizes a job promote invocation in an effect trace. -/
def isPromoteJob : Effect → Bool
  | .promoteJob _ => true
  | _ => false

/-- Body carried by a handler response, if any. -/
def HOut.bodyVal : HOut → Option JsVal
  | .plain v => some v
  | .coded b _ => b
  | .noResponse => none

/-- Property lookup on an object value (`undefined` for non-objects or
absent keys, modelled as `none`). -/
def getField : JsVal → String → Option JsVal
  | .obj fields, k => (fields.find? (fun p => p.1 == k)).map (fun p => p.2)
  | _, _ => none

/-- Field read on the body of a handler result. -/
def responseField (out : HOut × List Effect) (k : String) : Option JsVal :=
  out.1.bodyVal.bind (fun v => getField v k)

/-- The stats object described at the claim level: allow-listed metrics with
truthy values in allow-list order, then `total_system_memory` computed from
the truthiness of the info's own entry. -/
def statsSpec (info : List (String × String)) : List (String × JsVal) :=
  (metrics.filter (fun m => truthy (lookupInfo info m))).map
    (fun m => (m, jsOfOpt (lookupInfo info m)))
  ++ [("total_system_memory",
       if truthy (lookupInfo info "total_system_memory")
       then jsOfOpt (lookupInfo info "total_system_memory")
       else jsOfOpt (lookupInfo info "maxmemory"))]

/-- Value of `total_system_memory` exactly as claim C1 words it: the info's
entry or, only when that entry is absent, the `maxmemory` entry. -/
def c1ClaimedTotal (info : List (String × String)) : JsVal :=
  match lookupInfo info "total_system_memory" with
  | some v => .str v
  | none => jsOfOpt (lookupInfo info "maxmemory")

/-- Sample job used to instantiate theorems at concrete inputs. -/
def sampleJob : Job :=
  ⟨⟨.num 7, .num 1, .jsUndefVal, .jsUndefVal, .num 0, .num 2, .jsUndefVal, .arr [],
    .obj [], .obj [], .str "work"⟩, .num 0⟩

/-- Sample queue named alpha holding exactly one job, with id 7. -/
def sampleQueue : Queue :=
  ⟨"alpha", [("redis_version", "6.2"), ("maxmemory", "100")],
   fun _ => .obj [("active", .num 1)],
   fun _ _ _ => [sampleJob],
   fun j => if j == "7" then some sampleJob else none⟩

/-- Queue whose parsed info carries a present-but-empty
`total_system_memory` next to a `maxmemory` value: the JS-falsy yet present
case that separates truthiness from absence. -/
def cxQueue : Queue :=
  ⟨"cx", [("total_system_memory", ""), ("maxmemory", "100")],
   fun _ => .obj [], fun _ _ _ => [], fun _ => none⟩

lemma statsReduce_foldl (info : List (String × String)) (ms : List String) :
    ∀ acc : List (String × JsVal),
      ms.foldl (statsStep info) acc
      = acc ++ (ms.filter (fun m => truthy (lookupInfo info m))).map
          (fun m => (m, jsOfOpt (lookupInfo info m))) := by
  induction ms with
  | nil => intro acc; simp
  | cons m ms ih =>
    intro acc
    rw [List.foldl_cons, List.filter_cons]
    cases hm : lookupInfo info m with
    | none =>
      have hstep : statsStep info acc m = acc := by simp [statsStep, hm]
      rw [hstep, ih]
      simp [truthy]
    | some v =>
      by_cases hv : v = ""
      · subst hv
        have hstep : statsStep info acc m = acc := by simp [statsStep, hm]
        rw [hstep, ih]
        simp [truthy]
      · have hvb : (v == "") = false := by simpa using hv
        have hstep : statsStep info acc m = acc ++ [(m, JsVal.str v)] := by
          simp [statsStep, hm, hvb]
        have hval : jsOfOpt (lookupInfo info m) = JsVal.str v := by
          simp [jsOfOpt, hm]
        rw [hstep, ih]
        simp [truthy, bne, hvb, hval]

/-- The reduce result coincides with the claim-level filtered map. -/
lemma statsReduce_eq (info : List (String × String)) :
    statsReduce info
      = (metrics.filter (fun m => truthy (lookupInfo info m))).map
          (fun m => (m, jsOfOpt (lookupInfo info m))) := by
  unfold statsReduce
  rw [statsReduce_foldl info metrics []]
  exact List.nil_append _

/-- The stats object of `index` coincides with the claim-level description. -/
lemma statsOf_eq_statsSpec (info : List (String × String)) :
    statsOf info = statsSpec info := by
  rw [statsOf, statsSpec, statsReduce_eq]
  congr 1
  cases hm : lookupInfo info "total_system_memory" with
  | none => simp [truthy]
  | some v =>
    by_cases hv : v = ""
    · subst hv; simp [truthy, jsOfOpt]
    · have hvb : (v == "") = false := by simpa using hv
      simp [truthy, jsOfOpt, hvb, bne, hv]

/-- C6: for the empty queue list, the index handler returns exactly
the object with empty stats and empty queues array, and issues no store
info command, job-count fetch, or job listing. -/
theorem c6_index_empty (query : List (String × String)) :
    index [] query
      = (.plain (.obj [("stats", .obj []), ("queues", .arr [])]), []) := rfl

/-- C7: the plugin registers exactly five routes with exactly the
method and path-template pairs of the spec, bound to the handlers named
there, in registration order. -/
theorem c7_route_table (basePath : String) :
    onPostStartRoutes basePath
      = [⟨"GET", basePath ++ "/queues", HandlerId.index⟩,
         ⟨"PUT", basePath ++ "/queues/{queue}/retry", HandlerId.retryAll⟩,
         ⟨"PUT", basePath ++ "/queues/{queue}/clean/{status}", HandlerId.clean⟩,
         ⟨"PUT", basePath ++ "/queues/{queue}/jobs/{job}/retry", HandlerId.retry⟩,
         ⟨"PUT", basePath ++ "/queues/{queue}/jobs/{job}/promote", HandlerId.promote⟩]
      ∧ (onPostStartRoutes basePath).length = 5 := ⟨rfl, rfl⟩

/-- C1 (amended): for every non-empty queue list, the stats object of the
index response holds exactly the allow-listed metrics whose parsed-info
values are truthy, in allow-list order, followed by the key
total_system_memory, whose value is the info's total_system_memory entry
when that entry is present and truthy, and otherwise the info's maxmemory
entry. -/
theorem c1_index_stats (q0 : Queue) (rest : List Queue)
    (query : List (String × String)) :
    responseField (index (q0 :: rest) query) "stats"
      = some (.obj (statsSpec q0.redisInfo)) ∧
    (statsSpec q0.redisInfo).map Prod.fst
      = metrics.filter (fun m => truthy (lookupInfo q0.redisInfo m))
        ++ ["total_system_memory"] := by
  constructor
  · simp [index, responseField, HOut.bodyVal, getField,
      statsOf_eq_statsSpec]
  · rw [statsSpec, List.map_append, List.map_map,
      show (Prod.fst ∘ fun m => (m, jsOfOpt (lookupInfo q0.redisInfo m))) = id
        from rfl,
      List.map_id]
    rfl

/-- C1 counterexample: when the parsed info maps total_system_memory to the
empty string (present but JS-falsy) and maxmemory to 100, the handler
reports 100 while the claim as stated requires the present entry, the empty
string, to be used. -/
theorem c1_counterexample :
    responseField (index [cxQueue] []) "stats"
        = some (.obj [("total_system_memory", .str "100")]) ∧
    c1ClaimedTotal cxQueue.redisInfo = .str "" ∧
    JsVal.str "100" ≠ JsVal.str "" := by
  refine ⟨rfl, rfl, ?_⟩
  simp

/-- C2: for every non-empty queue list and query, the data array preserves
queue order; each entry carries the queue's name, the job counts requested
across exactly the six fixed statuses, and the formatted jobs obtained from
getJobs with offset 0 and limit 10 under the status filter derived from the
query: the six statuses when the query value for the queue's name is
latest, otherwise that value verbatim, absence included. -/
theorem c2_index_data (q0 : Queue) (rest : List Queue)
    (query : List (String × String)) :
    responseField (index (q0 :: rest) query) "data"
      = some (.arr ((q0 :: rest).map (fun q =>
          JsVal.obj
            [("name", .str q.name),
             ("counts", q.getJobCounts statuses),
             ("jobs", .arr ((q.getJobs (statusArgOf query q.name) 0 10).map
                formatJob))]))) ∧
    (index (q0 :: rest) query).2
      = Effect.infoCmd :: (q0 :: rest).flatMap (fun q =>
          [Effect.getJobCounts q.name statuses,
           Effect.getJobs q.name (statusArgOf query q.name) 0 10]) ∧
    (∀ name, lookupQuery query name = some "latest" →
       statusArgOf query name = .many statuses) ∧
    (∀ name v, lookupQuery query name = some v → v ≠ "latest" →
       statusArgOf query name = .single v) ∧
    (∀ name, lookupQuery query name = none →
       statusArgOf query name = .jsUndefVal) := by
  refine ⟨rfl, rfl, ?_, ?_, ?_⟩
  · intro name h
    simp [statusArgOf, h]
  · intro name v h hv
    simp [statusArgOf, h, hv]
  · intro name h
    simp [statusArgOf, h]

/-- C2 witness: concrete instances of the three query-derivation cases. -/
theorem c2_witness :
    statusArgOf [("alpha", "latest")] "alpha" = .many statuses ∧
    statusArgOf [("alpha", "failed")] "alpha" = .single "failed" ∧
    statusArgOf [] "alpha" = .jsUndefVal :=
  ⟨(c2_index_data sampleQueue [] [("alpha", "latest")]).2.2.1 "alpha" rfl,
   (c2_index_data sampleQueue [] [("alpha", "failed")]).2.2.2.1 "alpha"
     "failed" rfl (by decide),
   (c2_index_data sampleQueue [] []).2.2.2.2 "alpha" rfl⟩

lemma findQueue_eq_none (queues : List Queue) (name : String)
    (h : ∀ q ∈ queues, q.name ≠ name) : findQueue queues name = none := by
  rw [findQueue, List.find?_eq_none]
  intro q hq
  simpa using h q hq

lemma findQueue_name (queues : List Queue) (name : String) (q : Queue)
    (h : findQueue queues name = some q) : q.name = name := by
  have := List.find?_some h
  simpa using this

/-- C3: retry and promote answer 404 with the fixed not-found body both
when no queue bears the requested name and when the queue exists but its
job lookup returns nothing; in both cases the effect trace contains no
retry or promote call. -/
theorem c3_retry_promote_not_found_cases (queues : List Queue)
    (queueName jobId : String) :
    ((∀ q ∈ queues, q.name ≠ queueName) →
       retry queues queueName jobId = (notFoundOut, []) ∧
       promote queues queueName jobId = (notFoundOut, [])) ∧
    (∀ q, findQueue queues queueName = some q → q.getJob jobId = none →
       retry queues queueName jobId
           = (notFoundOut, [Effect.getJob q.name jobId]) ∧
       promote queues queueName jobId
           = (notFoundOut, [Effect.getJob q.name jobId])) := by
  constructor
  · intro h
    have hf := findQueue_eq_none queues queueName h
    constructor
    · unfold retry
      rw [hf]
    · unfold promote
      rw [hf]
  · intro q hq hj
    constructor
    · unfold retry
      simp only [hq, hj]
    · unfold promote
      simp only [hq, hj]

/-- C3 witness: the unknown-queue and unknown-job cases at concrete
inputs. -/
theorem c3_witness :
    retry [sampleQueue] "nope" "1" = (notFoundOut, []) ∧
    promote [sampleQueue] "nope" "1" = (notFoundOut, []) ∧
    retry [sampleQueue] "alpha" "9"
        = (notFoundOut, [Effect.getJob "alpha" "9"]) ∧
    promote [sampleQueue] "alpha" "9"
        = (notFoundOut, [Effect.getJob "alpha" "9"]) := by
  have hno : ∀ q ∈ [sampleQueue], q.name ≠ "nope" := by
    intro q hq
    rw [List.mem_singleton] at hq
    subst hq
    decide
  have h1 := (c3_retry_promote_not_found_cases [sampleQueue] "nope" "1").1 hno
  have h2 := (c3_retry_promote_not_found_cases [sampleQueue] "alpha" "9").2
    sampleQueue rfl rfl
  exact ⟨h1.1, h1.2, h2.1, h2.2⟩

/-- C4: for a known queue whose job lookup succeeds, retry makes exactly
one retry call on that job and answers 204 with empty body, and promote
makes exactly one promote call on that job and answers 204 with empty
body. -/
theorem c4_retry_promote_success (queues : List Queue)
    (queueName jobId : String) (q : Queue) (job : Job)
    (hq : findQueue queues queueName = some q)
    (hj : q.getJob jobId = some job) :
    retry queues queueName jobId
        = (.coded none 204, [Effect.getJob q.name jobId,
                             Effect.retryJob job]) ∧
    (retry queues queueName jobId).2.filter isRetryJob
        = [Effect.retryJob job] ∧
    promote queues queueName jobId
        = (.coded none 204, [Effect.getJob q.name jobId,
                             Effect.promoteJob job]) ∧
    (promote queues queueName jobId).2.filter isPromoteJob
        = [Effect.promoteJob job] := by
  have hr : retry queues queueName jobId
      = (.coded none 204, [Effect.getJob q.name jobId,
                           Effect.retryJob job]) := by
    unfold retry
    simp only [hq, hj]
  have hp : promote queues queueName jobId
      = (.coded none 204, [Effect.getJob q.name jobId,
                           Effect.promoteJob job]) := by
    unfold promote
    simp only [hq, hj]
  refine ⟨hr, ?_, hp, ?_⟩
  · rw [hr]
    rfl
  · rw [hp]
    rfl

/-- C4 witness: the success path at a concrete queue and job. -/
theorem c4_witness :
    retry [sampleQueue] "alpha" "7"
        = (.coded none 204, [Effect.getJob "alpha" "7",
                             Effect.retryJob sampleJob]) ∧
    promote [sampleQueue] "alpha" "7"
        = (.coded none 204, [Effect.getJob "alpha" "7",
                             Effect.promoteJob sampleJob]) :=
  ⟨(c4_retry_promote_success [sampleQueue] "alpha" "7" sampleQueue sampleJob
      rfl rfl).1,
   (c4_retry_promote_success [sampleQueue] "alpha" "7" sampleQueue sampleJob
      rfl rfl).2.2.1⟩

/-- C5: clean answers the fixed 404 body with no clean call when the queue
is unknown; for a known queue it makes exactly one clean call with grace
period exactly 5000 milliseconds and the status parameter unchanged, and
answers 200. -/
theorem c5_clean_cases (queues : List Queue) (queueName status : String) :
    ((∀ q ∈ queues, q.name ≠ queueName) →
       clean queues queueName status = (notFoundOut, [])) ∧
    (∀ q, findQueue queues queueName = some q →
       clean queues queueName status
           = (.coded none 200,
              [Effect.cleanQueue q.name GRACE_TIME_MS status]) ∧
       q.name = queueName ∧ GRACE_TIME_MS = 5000) := by
  constructor
  · intro h
    have hf := findQueue_eq_none queues queueName h
    unfold clean
    rw [hf]
  · intro q hq
    refine ⟨?_, findQueue_name queues queueName q hq, rfl⟩
    unfold clean
    rw [hq]

/-- C5 witness: both clean cases at concrete inputs. -/
theorem c5_witness :
    clean [sampleQueue] "alpha" "failed"
        = (.coded none 200, [Effect.cleanQueue "alpha" 5000 "failed"]) ∧
    clean [sampleQueue] "nope" "failed" = (notFoundOut, []) := by
  have hno : ∀ q ∈ [sampleQueue], q.name ≠ "nope" := by
    intro q hq
    rw [List.mem_singleton] at hq
    subst hq
    decide
  exact ⟨((c5_clean_cases [sampleQueue] "alpha" "failed").2 sampleQueue
      rfl).1,
    (c5_clean_cases [sampleQueue] "nope" "failed").1 hno⟩

/-- C8: retryAll answers 404 with the fixed not-found body for an unknown
queue name; for a known queue it makes no collaborator call at all and
produces no explicit success response. -/
theorem c8_retry_all_cases (queues : List Queue) (queueName : String) :
    ((∀ q ∈ queues, q.name ≠ queueName) →
       retryAll queues queueName = (notFoundOut, [])) ∧
    (∀ q, findQueue queues queueName = some q →
       retryAll queues queueName = (.noResponse, [])) := by
  constructor
  · intro h
    have hf := findQueue_eq_none queues queueName h
    unfold retryAll
    rw [hf]
  · intro q hq
    unfold retryAll
    rw [hq]

/-- C8 witness: both retryAll cases at concrete inputs. -/
theorem c8_witness :
    retryAll [sampleQueue] "nope" = (notFoundOut, []) ∧
    retryAll [sampleQueue] "alpha" = (.noResponse, []) := by
  have hno : ∀ q ∈ [sampleQueue], q.name ≠ "nope" := by
    intro q hq
    rw [List.mem_singleton] at hq
    subst hq
    decide
  exact ⟨(c8_retry_all_cases [sampleQueue] "nope").1 hno,
    (c8_retry_all_cases [sampleQueue] "alpha").2 sampleQueue rfl⟩

lemma index_no_getQueues (queues : List Queue)
    (query : List (String × String)) :
    (index queues query).2.filter isGetQueuesCall = [] := by
  cases queues with
  | nil => rfl
  | cons q0 rest =>
    simp only [index]
    rw [List.filter_eq_nil_iff]
    intro e he
    rcases List.mem_cons.mp he with rfl | hm
    · simp [isGetQueuesCall]
    · rcases List.mem_flatMap.mp hm with ⟨q, _, hq⟩
      simp only [dataEntryFx, List.mem_cons, List.mem_singleton] at hq
      rcases hq with rfl | rfl | h
      · simp [isGetQueuesCall]
      · simp [isGetQueuesCall]
      · cases h

lemma retryAll_no_getQueues (queues : List Queue) (queueName : String) :
    (retryAll queues queueName).2.filter isGetQueuesCall = [] := by
  unfold retryAll
  cases findQueue queues queueName <;> rfl

lemma retry_no_getQueues (queues : List Queue) (queueName jobId : String) :
    (retry queues queueName jobId).2.filter isGetQueuesCall = [] := by
  unfold retry
  cases findQueue queues queueName with
  | none => rfl
  | some q => cases hj : q.getJob jobId <;> simp [hj, isGetQueuesCall]

lemma promote_no_getQueues (queues : List Queue) (queueName jobId : String) :
    (promote queues queueName jobId).2.filter isGetQueuesCall = [] := by
  unfold promote
  cases findQueue queues queueName with
  | none => rfl
  | some q => cases hj : q.getJob jobId <;> simp [hj, isGetQueuesCall]

lemma clean_no_getQueues (queues : List Queue) (queueName status : String) :
    (clean queues queueName status).2.filter isGetQueuesCall = [] := by
  unfold clean
  cases findQueue queues queueName <;> rfl

lemma dispatch_fst (s : ServerState) (r : Request) : (dispatch s r).1 = s := by
  unfold dispatch
  cases r.handler <;> rfl

lemma dispatch_no_getQueues (s : ServerState) (r : Request) :
    (dispatch s r).2.2.filter isGetQueuesCall = [] := by
  unfold dispatch
  cases r.handler
  · exact index_no_getQueues s.queues r.query
  · exact retryAll_no_getQueues s.queues r.queueName
  · exact clean_no_getQueues s.queues r.queueName r.status
  · exact retry_no_getQueues s.queues r.queueName r.jobId
  · exact promote_no_getQueues s.queues r.queueName r.jobId

lemma runServer_foldl (reqs : List Request) :
    ∀ (s : ServerState) (fx : List Effect),
      (reqs.foldl serverStep (s, fx)).1 = s ∧
      (reqs.foldl serverStep (s, fx)).2.filter isGetQueuesCall
        = fx.filter isGetQueuesCall := by
  induction reqs with
  | nil => intro s fx; exact ⟨rfl, rfl⟩
  | cons r reqs ih =>
    intro s fx
    rw [List.foldl_cons]
    have hstep : serverStep (s, fx) r
        = (s, fx ++ (dispatch s r).2.2) := by
      unfold serverStep
      rw [dispatch_fst]
    rw [hstep]
    rcases ih s (fx ++ (dispatch s r).2.2) with ⟨h1, h2⟩
    refine ⟨h1, ?_⟩
    rw [h2, List.filter_append, dispatch_no_getQueues, List.append_nil]

/-- C9: across any sequence of handled requests, the server state (the
cached queue list and routing table) stays exactly what startup produced,
the queue list stays the one the getQueues factory resolved, and the whole
effect trace contains exactly one getQueues invocation, the one at
startup. -/
theorem c9_queues_resolved_once (opts : Options) (reqs : List Request) :
    (runServer opts reqs).1 = (startServer opts).1 ∧
    (runServer opts reqs).1.queues = opts.getQueuesResult ∧
    ((runServer opts reqs).2.filter isGetQueuesCall).length = 1 := by
  have h := runServer_foldl reqs
    ⟨opts.getQueuesResult, onPostStartRoutes opts.basePath⟩
    [Effect.getQueuesCall]
  refine ⟨h.1, ?_, ?_⟩
  · rw [show (runServer opts reqs).1
        = (⟨opts.getQueuesResult, onPostStartRoutes opts.basePath⟩
            : ServerState) from h.1]
  · rw [show (runServer opts reqs).2.filter isGetQueuesCall
        = ([Effect.getQueuesCall].filter isGetQueuesCall) from h.2]
    rfl

/-- C10 counterexample: at the empty base path the two plugins register
different route tables, and the two retry handlers disagree on the empty
queue list (404 versus no response). -/
theorem c10_counterexample :
    Lib.onPostStartRoutes "" ≠ onPostStartRoutes "" ∧
    Lib.retry [] "a" "b" ≠ retry [] "a" "b" := by
  constructor
  · decide
  · intro h
    have h1 := congrArg Prod.fst h
    simp [Lib.retry, retry, findQueue, notFoundOut] at h1

/-- C10 (amended): the two plugins are not equivalent. They agree on the
index response for the empty queue list and on the first registered route;
`src/lib/index.ts` registers a different route table from `part_000` at
every base path, its retryAll, retry, promote and clean handlers are stubs
answering nothing and calling nothing, its index handler produces the same
stats and the same collaborator calls, and its data entries agree on name
and jobs but store the job-counts promise unawaited. -/
theorem c10_plugins_differ :
    (∀ query, Lib.index [] query = index [] query) ∧
    (∀ basePath, (Lib.onPostStartRoutes basePath).head?
        = (onPostStartRoutes basePath).head?) ∧
    (∀ basePath, Lib.onPostStartRoutes basePath
        ≠ onPostStartRoutes basePath) ∧
    (∀ queues queueName jobId status,
       Lib.retryAll queues queueName = (.noResponse, ([] : List Effect)) ∧
       Lib.retry queues queueName jobId = (.noResponse, []) ∧
       Lib.promote queues queueName jobId = (.noResponse, []) ∧
       Lib.clean queues queueName status = (.noResponse, [])) ∧
    (∀ (q0 : Queue) (rest : List Queue) (query : List (String × String)),
       responseField (Lib.index (q0 :: rest) query) "stats"
         = responseField (index (q0 :: rest) query) "stats" ∧
       (Lib.index (q0 :: rest) query).2 = (index (q0 :: rest) query).2) ∧
    (∀ (query : List (String × String)) (q : Queue),
       getField (Lib.dataEntry query q) "counts"
         = some (.promiseOf (q.getJobCounts statuses)) ∧
       getField (dataEntry query q) "counts"
         = some (q.getJobCounts statuses) ∧
       getField (Lib.dataEntry query q) "jobs"
         = getField (dataEntry query q) "jobs" ∧
       getField (Lib.dataEntry query q) "name"
         = getField (dataEntry query q) "name") := by
  refine ⟨fun _ => rfl, fun _ => rfl, ?_, fun _ _ _ _ => ⟨rfl, rfl, rfl, rfl⟩,
    fun _ _ _ => ⟨rfl, rfl⟩, fun _ _ => ⟨rfl, rfl, rfl, rfl⟩⟩
  intro basePath h
  have h2 := congrArg (fun l => l.map Route.handler) h
  simp [Lib.onPostStartRoutes, onPostStartRoutes] at h2

/-- C10 witness: the amended statement instantiated at a concrete base
path. -/
theorem c10_witness :
    Lib.onPostStartRoutes "/api" ≠ onPostStartRoutes "/api" :=
  c10_plugins_differ.2.2.1 "/api"

end Banderilla
